import Mathlib

/-!
Verification of the QuickBrush editor-plugin specification against a shallow
embedding of the plugin source (`src/main.ts`).  The repository contains two
build variants of the same plugin:

* variant 1 (`main.ts`, first document): the direct-provider build ("Strategy B",
  OpenAI client, timestamp-suffixed `.png` files);
* variant 2 (`main.ts`, second document): the mediated-service build
  ("Strategy A", `quickbrush.online` API, generation-id / `.webp` files).

JavaScript strings are modelled as `String` / `List Char`; the regular
expressions of the source are translated into explicit character scanners that
reproduce the leftmost-match / global-replace semantics of `RegExp.exec` and
`String.replace`.  Host I/O (vault writes, HTTP) is modelled by passing each
awaited step's outcome explicitly.
-/

/-- The whitespace characters matched by JavaScript `\s` (and `String.trim`). -/
def jsWhitespace : List Char :=
  [' ', '\t', '\n', '\r', Char.ofNat 11, Char.ofNat 12, Char.ofNat 160,
   Char.ofNat 0x1680, Char.ofNat 0x2000, Char.ofNat 0x2001, Char.ofNat 0x2002,
   Char.ofNat 0x2003, Char.ofNat 0x2004, Char.ofNat 0x2005, Char.ofNat 0x2006,
   Char.ofNat 0x2007, Char.ofNat 0x2008, Char.ofNat 0x2009, Char.ofNat 0x200A,
   Char.ofNat 0x2028, Char.ofNat 0x2029, Char.ofNat 0x202F, Char.ofNat 0x205F,
   Char.ofNat 0x3000, Char.ofNat 0xFEFF]

/-- Membership in the JavaScript `\s` class. -/
def isJsSpace (c : Char) : Bool := jsWhitespace.contains c

/-- JavaScript `String.prototype.trim` on character lists. -/
def jsTrim (cs : List Char) : List Char :=
  ((cs.dropWhile isJsSpace).reverse.dropWhile isJsSpace).reverse

/-- JavaScript `String.prototype.trim`. -/
def jsTrimStr (s : String) : String := String.mk (jsTrim s.data)

/-- JavaScript `s.substring(0, n)`. -/
def strTake (n : Nat) (s : String) : String := String.mk (s.data.take n)

/-- ASCII lower-casing, as applied by `toLowerCase` to the characters that the
image-extension patterns can match. -/
def toLowerChar (c : Char) : Char :=
  if 65 ≤ c.toNat ∧ c.toNat ≤ 90 then Char.ofNat (c.toNat + 32) else c

/-- JavaScript `String.prototype.toLowerCase`. -/
def toLowerStr (s : String) : String := String.mk (s.data.map toLowerChar)

/-- JavaScript `a || b` for an optional string `a`: an absent or empty string
falls through to `b`. -/
def jsOr (a : Option String) (b : String) : String :=
  match a with
  | some s => if s = "" then b else s
  | none => b

/-- JavaScript `Array.prototype.join(sep)`. -/
def joinWith (sep : String) : List String → String
  | [] => ""
  | [x] => x
  | x :: y :: xs => x ++ sep ++ joinWith sep (y :: xs)

/-- The opening frontmatter delimiter `---\n` of the source regex
`/^---\n[\s\S]*?\n---\n/`. -/
def fmOpen : List Char := ['-', '-', '-', '\n']

/-- The closing frontmatter delimiter `\n---\n`. -/
def fmClose : List Char := ['\n', '-', '-', '-', '\n']

/-- Search for the first occurrence of `\n---\n` (the non-greedy `[\s\S]*?`
stops at the earliest closing delimiter) and return what follows it. -/
def findDelim : List Char → Option (List Char)
  | [] => none
  | c :: cs =>
    if fmClose.isPrefixOf (c :: cs) then some ((c :: cs).drop 5)
    else findDelim cs

/-- The frontmatter-removal step of `extractContentWithoutFrontmatter`:
`content.replace(/^---\n[\s\S]*?\n---\n/, '')`.  The regex is anchored at the
start of the string and `replace` (no `g` flag) removes the first match only. -/
def stripFrontmatterList (cs : List Char) : List Char :=
  if fmOpen.isPrefixOf cs then
    match findDelim (cs.drop 4) with
    | some rest => rest
    | none => cs
  else cs

/-- String-level frontmatter stripping (the spec's `stripFrontmatter`). -/
def stripFrontmatter (s : String) : String := String.mk (stripFrontmatterList s.data)

/-- JavaScript `\w` (word character): `[A-Za-z0-9_]`. -/
def isWordChar (c : Char) : Bool :=
  ('a' ≤ c && c ≤ 'z') || ('A' ≤ c && c ≤ 'Z') || ('0' ≤ c && c ≤ '9') || c == '_'

/-- A character kept by the sanitizer regex `/[^\w\s-]/g` (which deletes
everything outside word characters, whitespace and hyphen). -/
def keepChar (c : Char) : Bool := isWordChar c || isJsSpace c || c == '-'

/-- `replace(/\s+/g, '-')`: every maximal whitespace run becomes one hyphen. -/
def collapseWsAux : Bool → List Char → List Char
  | _, [] => []
  | inRun, c :: tl =>
    if isJsSpace c then
      if inRun then collapseWsAux true tl else '-' :: collapseWsAux true tl
    else c :: collapseWsAux false tl

/-- Whole-string whitespace collapsing. -/
def collapseWs (cs : List Char) : List Char := collapseWsAux false cs

/-- The filename sanitizer used by `saveImageToVault` and `createGalleryNote`:
`name.replace(/[^\w\s-]/g, '').trim().replace(/\s+/g, '-')`. -/
def sanitizeName (s : String) : String :=
  String.mk (collapseWs (jsTrim (s.data.filter keepChar)))

/-- Filename chosen by variant 2's `saveImageToVault(generationId, data, imageName?)`. -/
def saveImageFilenameV2 (generationId : String) (imageName : Option String) : String :=
  match imageName with
  | some name =>
    if name = "" then "quickbrush-" ++ generationId ++ ".webp"
    else sanitizeName name ++ ".webp"
  | none => "quickbrush-" ++ generationId ++ ".webp"

/-- Filename chosen by variant 1's `saveImageToVault(blob, imageName?)`; the
millisecond timestamp `Date.now()` is passed explicitly. -/
def saveImageFilenameV1 (timestamp : Nat) (imageName : Option String) : String :=
  match imageName with
  | some name =>
    if name = "" then "quickbrush-" ++ toString timestamp ++ ".png"
    else sanitizeName name ++ "-" ++ toString timestamp ++ ".png"
  | none => "quickbrush-" ++ toString timestamp ++ ".png"

/-- The extension-to-mime table of `resolveImageToBase64` (both variants). -/
def mimeTypes : List (String × String) :=
  [("png", "image/png"), ("jpg", "image/jpeg"), ("jpeg", "image/jpeg"),
   ("gif", "image/gif"), ("webp", "image/webp"), ("bmp", "image/bmp")]

/-- `const mimeType = mimeTypes[ext] || 'image/png'` with
`ext = file.extension.toLowerCase()`. -/
def mimeTypeFor (ext : String) : String :=
  jsOr (mimeTypes.lookup (toLowerStr ext)) "image/png"

/-- The data URI built by `resolveImageToBase64`: `data:{mime};base64,{bytes}`. -/
def imageDataUri (ext b64 : String) : String :=
  "data:" ++ mimeTypeFor ext ++ ";base64," ++ b64

/-- Scan for the non-greedy closing `]]` of `/!\[\[.*?\]\]/` (or `/\[\[(.*?)\]\]/`);
`.` does not match a newline, so a newline aborts the match attempt. -/
def findCloseBrackets : List Char → Option (List Char)
  | ']' :: ']' :: tl => some tl
  | '\n' :: _ => none
  | _ :: tl => findCloseBrackets tl
  | [] => none

/-- As `findCloseBrackets`, but also capture the characters before the `]]`. -/
def findCloseCapture : List Char → Option (List Char × List Char)
  | ']' :: ']' :: tl => some ([], tl)
  | '\n' :: _ => none
  | c :: tl => (findCloseCapture tl).map (fun p => (c :: p.1, p.2))
  | [] => none

/-- One match attempt of `/!\[\[.*?\]\]/g` (image embeds, replaced by `''`):
returns the replacement text and the remainder after the match. -/
def matchImgEmbedAt : List Char → Option (List Char × List Char)
  | '!' :: '[' :: '[' :: rest => (findCloseBrackets rest).map (fun tl => ([], tl))
  | _ => none

/-- One match attempt of `/\[\[(.*?)\]\]/g` (wiki links, replaced by `'$1'`). -/
def matchWikiLinkAt : List Char → Option (List Char × List Char)
  | '[' :: '[' :: rest => findCloseCapture rest
  | _ => none

/-- One match attempt of `/\[([^\]]+)\]\([^\)]+\)/g` (markdown links, replaced
by the link label `'$1'`). -/
def matchMdLinkAt : List Char → Option (List Char × List Char)
  | '[' :: rest =>
    let label := rest.takeWhile (fun c => c ≠ ']')
    if label.isEmpty then none
    else
      match rest.drop label.length with
      | ']' :: '(' :: rest2 =>
        let url := rest2.takeWhile (fun c => c ≠ ')')
        if url.isEmpty then none
        else
          match rest2.drop url.length with
          | ')' :: tl => some (label, tl)
          | _ => none
      | _ => none
  | _ => none

/-- Global regex replacement: at each position try `matcher`; on a match emit
its replacement and resume after the match (the `lastIndex` semantics of a
`g`-flagged `replace`), otherwise keep one character and move on.  `fuel` is an
upper bound on the number of steps; every step consumes at least one input
character, so `fuel = input length` runs the scan to completion. -/
def replaceScan (matcher : List Char → Option (List Char × List Char)) :
    Nat → List Char → List Char
  | 0, cs => cs
  | fuel + 1, cs =>
    match matcher cs with
    | some (rep, rest) => rep ++ replaceScan matcher fuel rest
    | none =>
      match cs with
      | [] => []
      | c :: tl => c :: replaceScan matcher fuel tl

/-- One match attempt of `/^#{1,6}\s+/m` at a line start: `#{1,6}` must be the
whole hash run (a seventh `#` blocks the required `\s`), then a maximal
whitespace run.  Returns whether the match ends just after a newline (so the
next position is again a line start) and the remainder. -/
def matchHeaderAt (cs : List Char) : Option (Bool × List Char) :=
  let hashes := cs.takeWhile (fun c => c = '#')
  if 1 ≤ hashes.length ∧ hashes.length ≤ 6 then
    let rest := cs.drop hashes.length
    let ws := rest.takeWhile isJsSpace
    if ws.isEmpty then none
    else some (ws.getLast? == some '\n', rest.drop ws.length)
  else none

/-- One match attempt of `/^[-*+]\s+/m` at a line start (list markers). -/
def matchListMarkerAt : List Char → Option (Bool × List Char)
  | c :: rest =>
    if c = '-' ∨ c = '*' ∨ c = '+' then
      let ws := rest.takeWhile isJsSpace
      if ws.isEmpty then none
      else some (ws.getLast? == some '\n', rest.drop ws.length)
    else none
  | [] => none

/-- Global replacement of a `^`-anchored multiline pattern: `atStart` holds at
the string start and right after every newline of the original string. -/
def stripLineMarkers (matcher : List Char → Option (Bool × List Char)) :
    Nat → Bool → List Char → List Char
  | 0, _, cs => cs
  | fuel + 1, atStart, cs =>
    match (if atStart then matcher cs else none) with
    | some (nl, rest) => stripLineMarkers matcher fuel nl rest
    | none =>
      match cs with
      | [] => []
      | c :: tl => c :: stripLineMarkers matcher fuel (c == '\n') tl

/-- `replace(/\*\*/g, '')`: delete every non-overlapping `**` pair. -/
def removeDoubleStar : List Char → List Char
  | '*' :: '*' :: tl => removeDoubleStar tl
  | c :: tl => c :: removeDoubleStar tl
  | [] => []

/-- The markdown-formatting removal chain of `extractContentWithoutFrontmatter`
(image embeds, wiki links, markdown links, headers, bold, italic, list
markers), in source order. -/
def removeFormatting (cs : List Char) : List Char :=
  let s1 := replaceScan matchImgEmbedAt cs.length cs
  let s2 := replaceScan matchWikiLinkAt s1.length s1
  let s3 := replaceScan matchMdLinkAt s2.length s2
  let s4 := stripLineMarkers matchHeaderAt s3.length true s3
  let s5 := removeDoubleStar s4
  let s6 := s5.filter (fun c => c ≠ '*')
  let s7 := stripLineMarkers matchListMarkerAt s6.length true s6
  s7

/-- The prose-cleaning tail of `extractContentWithoutFrontmatter`: formatting
removal, `trim()`, then hard truncation to 10,000 characters. -/
def cleanProseList (cs : List Char) : List Char :=
  let t := jsTrim (removeFormatting cs)
  if 10000 < t.length then t.take 10000 else t

/-- The spec's `cleanProse`, on strings. -/
def cleanProse (s : String) : String := String.mk (cleanProseList s.data)

/-- `extractContentWithoutFrontmatter` from the source: strip frontmatter, then
clean the prose. -/
def extractContentWithoutFrontmatter (s : String) : String :=
  cleanProse (stripFrontmatter s)

/-- Image extensions accepted by both embed regexes. -/
def imageExtList : List (List Char) :=
  ["png".data, "jpg".data, "jpeg".data, "gif".data, "webp".data, "bmp".data]

/-- Whether a captured run matches `[^x]+\.(png|jpg|jpeg|gif|webp|bmp)` with
the `i` flag: it ends in a dot plus one of the extensions (case-insensitively)
and has at least one character before that dot. -/
def hasImageExt (run : List Char) : Bool :=
  imageExtList.any (fun ext =>
    decide (ext.length + 2 ≤ run.length) &&
    ((run.drop (run.length - ext.length)).map toLowerChar == ext) &&
    ((run.take (run.length - ext.length)).getLast? == some '.'))

/-- One match attempt of `/!\[\[([^\]]+\.(png|jpg|jpeg|gif|webp|bmp))\]\]/gi`:
the capture runs to the first `]`, which must be followed by a second `]`. -/
def matchWikiImageAt : List Char → Option (List Char × List Char)
  | '!' :: '[' :: '[' :: rest =>
    let run := rest.takeWhile (fun c => c ≠ ']')
    match rest.drop run.length with
    | ']' :: ']' :: tl => if hasImageExt run then some (run, tl) else none
    | _ => none
  | _ => none

/-- One match attempt of `/!\[[^\]]*\]\(([^\)]+\.(png|jpg|jpeg|gif|webp|bmp))\)/gi`. -/
def matchMdImageAt : List Char → Option (List Char × List Char)
  | '!' :: '[' :: rest =>
    let alt := rest.takeWhile (fun c => c ≠ ']')
    match rest.drop alt.length with
    | ']' :: '(' :: rest2 =>
      let url := rest2.takeWhile (fun c => c ≠ ')')
      match rest2.drop url.length with
      | ')' :: tl => if hasImageExt url then some (url, tl) else none
      | _ => none
    | _ => none
  | _ => none

/-- All captures of a `g`-flagged `exec` loop, in document order. -/
def execAll (matcher : List Char → Option (List Char × List Char)) :
    Nat → List Char → List (List Char)
  | 0, _ => []
  | fuel + 1, cs =>
    match matcher cs with
    | some (cap, rest) => cap :: execAll matcher fuel rest
    | none =>
      match cs with
      | [] => []
      | _ :: tl => execAll matcher fuel tl

/-- The `exec` loop of `extractImagePaths`, which stops pushing once
`images.length` reaches the cap. -/
def execCapped (matcher : List Char → Option (List Char × List Char)) :
    Nat → List Char → Nat → List (List Char)
  | 0, _, _ => []
  | fuel + 1, cs, cap =>
    if cap = 0 then []
    else
      match matcher cs with
      | some (capt, rest) => capt :: execCapped matcher fuel rest (cap - 1)
      | none =>
        match cs with
        | [] => []
        | _ :: tl => execCapped matcher fuel tl cap

/-- `extractImagePaths` from the source, with the hardcoded cap (4 in
variant 1, 3 in variant 2) as a parameter: wiki-style embeds first, then, only
if the cap is not yet reached, markdown-style embeds. -/
def extractImagePaths (content : String) (cap : Nat) : List String :=
  let images := execCapped matchWikiImageAt content.data.length content.data cap
  let both :=
    if images.length < cap then
      images ++ execCapped matchMdImageAt content.data.length content.data (cap - images.length)
    else images
  both.map String.mk

/-- All wiki-style image embeds of a document, in document order. -/
def wikiImageEmbeds (content : String) : List (List Char) :=
  execAll matchWikiImageAt content.data.length content.data

/-- All markdown-style image embeds of a document, in document order. -/
def mdImageEmbeds (content : String) : List (List Char) :=
  execAll matchMdImageAt content.data.length content.data

/-- The `GenerationOptions` record of variant 1 (direct provider). -/
structure GenerationOptionsV1 where
  text : String
  image_name : String
  prompt : String
  generation_type : String
  quality : String
  aspect_ratio : String
  reference_images : List String
deriving DecidableEq

/-- The request-building head of variant 1's `GenerateModal.handleGenerate`
(lines 509-536): every field is trimmed, an empty name falls back to
`'Untitled'`, an empty description aborts, and no truncation is applied. -/
def buildRequestV1 (textRaw nameRaw promptRaw gtype quality ar : String)
    (refImages : List String) : Option GenerationOptionsV1 :=
  let text := jsTrimStr textRaw
  let imageName := if jsTrimStr nameRaw = "" then "Untitled" else jsTrimStr nameRaw
  let prompt := jsTrimStr promptRaw
  if text = "" then none
  else
    some { text := text, image_name := imageName, prompt := prompt,
           generation_type := gtype, quality := quality, aspect_ratio := ar,
           reference_images := refImages }

/-- The `GenerationOptions` record of variant 2 (mediated service). -/
structure GenerationOptionsV2 where
  text : String
  image_name : String
  prompt : Option String
  generation_type : String
  quality : String
  aspect_ratio : String
  reference_image_paths : Option (List String)
deriving DecidableEq

/-- The request-building head of variant 2's `GenerateModal.handleGenerate`
(lines 1447-1468): empty description or name aborts, `text` is truncated with
`substring(0, 10000)`, the prompt with `substring(0, 1000)` (an empty result
becoming `undefined`). -/
def buildRequestV2 (textRaw nameRaw promptRaw gtype quality ar : String)
    (refImages : List String) : Option GenerationOptionsV2 :=
  let text := jsTrimStr textRaw
  if text = "" then none
  else
    let imageName := jsTrimStr nameRaw
    if imageName = "" then none
    else
      let p := strTake 1000 promptRaw
      some { text := strTake 10000 text, image_name := imageName,
             prompt := if p = "" then none else some p,
             generation_type := gtype, quality := quality, aspect_ratio := ar,
             reference_image_paths := if refImages.length = 0 then none else some refImages }

/-- One item of a FastAPI-style 422 `detail` array. -/
structure DetailItem where
  loc : Option (List String)
  msg : Option String
  message : Option String
deriving DecidableEq

/-- The `detail` field of an error body: either a plain string or an array of
validation items. -/
inductive DetailVal where
  | str (s : String)
  | arr (items : List DetailItem)
deriving DecidableEq

/-- An error-response JSON body as read by `generateImage`. -/
structure ErrJson where
  detail : Option DetailVal
  message : Option String
deriving DecidableEq

/-- JavaScript stringification of a `detail` value, as a template literal would
render it (an array of objects becomes comma-joined `[object Object]`). -/
def jsDetailString (d : DetailVal) : String :=
  match d with
  | .str s => s
  | .arr items => joinWith "," (items.map (fun _ => "[object Object]"))

/-- `apiErrorMessage = errorData.detail || errorData.message || 'Unknown error'`
(an absent body, e.g. a JSON parse failure, keeps the default). -/
def apiErrorMessage (body : Option ErrJson) : String :=
  match body with
  | none => "Unknown error"
  | some j =>
    match j.detail with
    | some (.str s) => if s = "" then jsOr j.message "Unknown error" else s
    | some (.arr items) => jsDetailString (.arr items)
    | none => jsOr j.message "Unknown error"

/-- One line of the 422 breakdown:
``e.loc ? e.loc.join('.') : 'field'`` + `': '` + ``e.msg || e.message || 'validation error'``. -/
def detailLine (e : DetailItem) : String :=
  (match e.loc with
   | some locs => joinWith "." locs
   | none => "field") ++ ": " ++ jsOr e.msg (jsOr e.message "validation error")

/-- The error message thrown by variant 2's `generateImage` for a non-200
status (lines 939-964). -/
def classifyGenerateError (status : Nat) (body : Option ErrJson) : String :=
  let m := apiErrorMessage body
  if status = 401 then
    "Invalid API Key: " ++ m ++ "\n\nPlease check your QuickBrush settings and update your API key from quickbrush.online."
  else if status = 402 then
    "Insufficient Brushstrokes: " ++ m ++ "\n\nVisit quickbrush.online to purchase more or upgrade your subscription."
  else if status = 429 then
    "Rate Limit Exceeded: " ++ m ++ "\n\nPlease wait before trying again. Limits: 1 per 10 seconds, 50 per hour."
  else if status = 422 then
    let errorDetails :=
      match body with
      | some j =>
        match j.detail with
        | some (.arr items) => joinWith "\n" (items.map detailLine)
        | _ => m
      | none => m
    "Validation Error: " ++ errorDetails ++ "\n\nPlease check your inputs and try again."
  else
    "Generation Failed (" ++ toString status ++ "): " ++ m ++ "\n\nIf this persists, please contact support at quickbrush.online."

/-- A value caught by `generateImage`'s catch clause: a JavaScript `Error`
carrying a message, or any other thrown value. -/
inductive JsThrown where
  | jsError (msg : String)
  | nonError
deriving DecidableEq

/-- The generic connectivity message of the catch clause. -/
def networkErrorMessage : String :=
  "Network Error: Failed to connect to QuickBrush API. Please check your internet connection and API URL in settings."

/-- The catch clause of `generateImage` (lines 965-974): an `Error` whose
message contains a colon is re-thrown as-is, anything else is replaced by the
generic network message. -/
def catchClause (e : JsThrown) : String :=
  match e with
  | .jsError m => if m.data.contains ':' then m else networkErrorMessage
  | .nonError => networkErrorMessage

/-- Outcome of the `requestUrl` call inside `generateImage`: a response (with
`throw: false`, every status is returned) or a thrown transport error. -/
inductive TransportOutcome where
  | response (status : Nat) (body : Option ErrJson)
  | thrown (e : JsThrown)
deriving DecidableEq

/-- Variant 2's `generateImage` as seen by its caller: `ok` on HTTP 200,
otherwise the error message surfaced after classification and the catch
clause. -/
def generateImage (o : TransportOutcome) : Except String Unit :=
  match o with
  | .response status body =>
    if status = 200 then .ok ()
    else .error (catchClause (.jsError (classifyGenerateError status body)))
  | .thrown e => .error (catchClause e)

/-- The two vault artifacts a generation run can persist. -/
inductive VaultWrite where
  | imageFile
  | galleryNote
deriving DecidableEq

/-- The persistence behaviour of variant 2's `GenerateModal.handleGenerate`
(lines 1474-1514): `generateImage`, `downloadImage`, `saveImageToVault` and
`createGalleryNote` are awaited in order inside one `try` block whose `catch`
only shows a notice.  Each argument is the outcome of the corresponding await;
the result lists the vault artifacts that exist after the run, in write
order. -/
def handleGenerate (gen download save note : Except String Unit) : List VaultWrite :=
  match gen with
  | .error _ => []
  | .ok _ =>
    match download with
    | .error _ => []
    | .ok _ =>
      match save with
      | .error _ => []
      | .ok _ =>
        match note with
        | .error _ => [VaultWrite.imageFile]
        | .ok _ => [VaultWrite.imageFile, VaultWrite.galleryNote]

/-- Whether an `Except` outcome is a success. -/
def exOk (e : Except String Unit) : Bool :=
  match e with
  | .ok _ => true
  | .error _ => false

/-- Claim C1 (amended): persistence is sequential, not transactional.  A
failure of the generation call, the download, or the image write leaves the
vault untouched; the gallery note is only ever written after the image file;
but a gallery-note failure after a successful image write leaves the image
file persisted on its own. -/
theorem c1_persistence (g d s n : Except String Unit) :
    (exOk g = false ∨ exOk d = false ∨ exOk s = false → handleGenerate g d s n = []) ∧
    (exOk g = true → exOk d = true → exOk s = true → exOk n = false →
      handleGenerate g d s n = [VaultWrite.imageFile]) ∧
    (handleGenerate g d s n = [] ∨ handleGenerate g d s n = [VaultWrite.imageFile] ∨
      handleGenerate g d s n = [VaultWrite.imageFile, VaultWrite.galleryNote]) := by
  cases g <;> cases d <;> cases s <;> cases n <;> simp [handleGenerate, exOk]

/-- Witness for `c1_persistence`: a download-age ok run with a failed note
write persists exactly the image file, and a failed generation persists
nothing. -/
theorem c1_persistence_witness :
    handleGenerate (.error "network") (.ok ()) (.ok ()) (.ok ()) = [] ∧
    handleGenerate (.ok ()) (.ok ()) (.ok ()) (.error "exists") = [VaultWrite.imageFile] :=
  ⟨(c1_persistence _ _ _ _).1 (Or.inl rfl), (c1_persistence _ _ _ _).2.1 rfl rfl rfl rfl⟩

/-- Counterexample to claim C1 as stated: when every step up to and including
the image write succeeds but the gallery-note write fails, the vault has
gained the image file, so a failure downstream of the HTTP call does not imply
that no artifact was persisted. -/
theorem c1_counterexample :
    handleGenerate (.ok ()) (.ok ()) (.ok ()) (.error "gallery note write failed") =
      [VaultWrite.imageFile] ∧
    handleGenerate (.ok ()) (.ok ()) (.ok ()) (.error "gallery note write failed") ≠ [] :=
  ⟨rfl, by decide⟩

/-- Claim C6 (amended): the catch clause of variant 2's `generateImage`
replaces a thrown value by the generic connectivity message exactly when it is
not an `Error` whose message contains a colon; a transport error whose own
message happens to contain `':'` is re-thrown verbatim. -/
theorem c6_network_error :
    (∀ m : String, m.data.contains ':' = false →
      generateImage (.thrown (.jsError m)) = .error networkErrorMessage) ∧
    generateImage (.thrown .nonError) = .error networkErrorMessage ∧
    (∀ m : String, m.data.contains ':' = true →
      generateImage (.thrown (.jsError m)) = .error m) := by
  refine ⟨?_, rfl, ?_⟩ <;> intro m h
  · have h' : ¬ (':' ∈ m.data) := by simpa using h
    simp [generateImage, catchClause, h']
  · have h' : ':' ∈ m.data := by simpa using h
    simp [generateImage, catchClause, h']

/-- Witness for `c6_network_error` at concrete thrown errors. -/
theorem c6_network_error_witness :
    generateImage (.thrown (.jsError "connection timed out")) = .error networkErrorMessage ∧
    generateImage (.thrown (.jsError "net::ERR_FAILED")) = .error "net::ERR_FAILED" :=
  ⟨c6_network_error.1 "connection timed out" (by decide),
   c6_network_error.2.2 "net::ERR_FAILED" (by decide)⟩

/-- Counterexample to claim C6 as stated: a transport-level error message
containing a colon is surfaced with its own text, not the generic
connectivity message. -/
theorem c6_counterexample :
    generateImage (.thrown (.jsError "net::ERR_CONNECTION_REFUSED")) =
      .error "net::ERR_CONNECTION_REFUSED" ∧
    "net::ERR_CONNECTION_REFUSED" ≠ networkErrorMessage :=
  ⟨rfl, by decide⟩

/-- Claim C7 (amended): for a non-empty name hint, variant 1 stores
`{sanitized}-{timestamp}.png` while variant 2 stores `{sanitized}.webp` with
no disambiguating suffix at all (the generation id appears only when the hint
is absent); sanitization maps `"Elara Moonwhisper!!"` to
`"Elara-Moonwhisper"`. -/
theorem c7_filenames :
    (∀ (name : String) (ts : Nat) (gid : String), name ≠ "" →
      saveImageFilenameV1 ts (some name) = sanitizeName name ++ "-" ++ toString ts ++ ".png" ∧
      saveImageFilenameV2 gid (some name) = sanitizeName name ++ ".webp") ∧
    sanitizeName "Elara Moonwhisper!!" = "Elara-Moonwhisper" := by
  refine ⟨fun name ts gid h => ?_, by decide⟩
  constructor <;> simp [saveImageFilenameV1, saveImageFilenameV2, h]

/-- Witness for `c7_filenames` at the spec's example hint. -/
theorem c7_filenames_witness :
    saveImageFilenameV1 99 (some "Elara Moonwhisper!!") =
      sanitizeName "Elara Moonwhisper!!" ++ "-" ++ toString 99 ++ ".png" ∧
    saveImageFilenameV2 "gen42" (some "Elara Moonwhisper!!") =
      sanitizeName "Elara Moonwhisper!!" ++ ".webp" :=
  c7_filenames.1 "Elara Moonwhisper!!" 99 "gen42" (by decide)

/-- Counterexample to claim C7 as stated: with a non-empty name hint,
variant 2's stored filename carries no trace of the generation id (nor any
other disambiguating suffix) between the sanitized hint and the extension. -/
theorem c7_counterexample :
    saveImageFilenameV2 "abc123" (some "Elara Moonwhisper!!") = "Elara-Moonwhisper.webp" ∧
    ¬ ("abc123".data <:+: "Elara-Moonwhisper.webp".data) :=
  ⟨by decide, by decide⟩

/-- Claim C8 (amended): the mime type is a fixed-table lookup with an
`image/png` fallback for extensions missing from the table, but `bmp` is in
the table and maps to `image/bmp`; the result is rendered as a
`data:{mime};base64,{bytes}` URI. -/
theorem c8_mime :
    (∀ ext : String, mimeTypes.lookup (toLowerStr ext) = none → mimeTypeFor ext = "image/png") ∧
    mimeTypeFor "png" = "image/png" ∧ mimeTypeFor "jpg" = "image/jpeg" ∧
    mimeTypeFor "jpeg" = "image/jpeg" ∧ mimeTypeFor "gif" = "image/gif" ∧
    mimeTypeFor "webp" = "image/webp" ∧ mimeTypeFor "bmp" = "image/bmp" ∧
    (∀ ext b64 : String, imageDataUri ext b64 = "data:" ++ mimeTypeFor ext ++ ";base64," ++ b64) := by
  refine ⟨?_, by decide, by decide, by decide, by decide, by decide, by decide,
    fun ext b64 => rfl⟩
  intro ext h
  simp [mimeTypeFor, h, jsOr]

/-- Witness for `c8_mime`: an extension absent from the table falls back to
`image/png`. -/
theorem c8_mime_witness : mimeTypeFor "tiff" = "image/png" :=
  c8_mime.1 "tiff" (by decide)

/-- Counterexample to claim C8 as stated: extension `bmp` does have a table
entry, so it is encoded as `image/bmp`, not with the `image/png` fallback. -/
theorem c8_counterexample :
    mimeTypeFor "bmp" = "image/bmp" ∧ mimeTypeFor "bmp" ≠ "image/png" :=
  ⟨by decide, by decide⟩

/-- Claim C10: a name hint consisting solely of characters outside word
characters, whitespace and hyphen sanitizes to the empty string, and both
variants still build a degenerate filename — `-{timestamp}.png` in variant 1
and bare `.webp` in variant 2 — with no guard against the empty base name. -/
theorem c10_degenerate (name : String) (ts : Nat) (gid : String)
    (hne : name ≠ "") (hall : ∀ c ∈ name.data, keepChar c = false) :
    sanitizeName name = "" ∧
    saveImageFilenameV1 ts (some name) = "-" ++ toString ts ++ ".png" ∧
    saveImageFilenameV2 gid (some name) = ".webp" := by
  have hf : name.data.filter keepChar = [] := by
    rw [List.filter_eq_nil_iff]
    intro a ha
    simp [hall a ha]
  have hs : sanitizeName name = "" := by
    simp [sanitizeName, hf, jsTrim, collapseWs, collapseWsAux]
  refine ⟨hs, ?_, ?_⟩ <;>
    simp [saveImageFilenameV1, saveImageFilenameV2, hne, hs]

/-- Witness for `c10_degenerate` at the hint `"!!!"`. -/
theorem c10_degenerate_witness :
    sanitizeName "!!!" = "" ∧
    saveImageFilenameV1 123 (some "!!!") = "-" ++ toString 123 ++ ".png" ∧
    saveImageFilenameV2 "g1" (some "!!!") = ".webp" :=
  c10_degenerate "!!!" 123 "g1" (by decide) (by decide)

theorem joinWith_contains_mem (sep s : String) (l : List String) (h : s ∈ l) :
    s.data <:+: (joinWith sep l).data := by
  induction l with
  | nil => cases h
  | cons x xs ih =>
    cases xs with
    | nil =>
      have hx : s = x := by simpa using h
      subst hx
      exact List.infix_rfl
    | cons y ys =>
      rcases List.mem_cons.mp h with hx | hmem
      · subst hx
        refine ⟨[], (sep ++ joinWith sep (y :: ys)).data, ?_⟩
        simp [joinWith, String.data_append]
      · have hsub : s.data <:+: (joinWith sep (y :: ys)).data := ih hmem
        have hstep : (joinWith sep (y :: ys)).data <:+: (joinWith sep (x :: y :: ys)).data := by
          have : joinWith sep (x :: y :: ys) = (x ++ sep) ++ joinWith sep (y :: ys) := by
            simp [joinWith, String.append_assoc]
          rw [this, String.data_append]
          exact (List.suffix_append _ _).isInfix
        exact hsub.trans hstep

/-- Claim C5: for every 422 response whose `detail` is an array, the surfaced
validation message contains, for each item, the line formed by the item's
`loc` segments joined with `'.'`, a `': '` separator, and the item's message. -/
theorem c5_validation_lines (items : List DetailItem) (msg : Option String)
    (e : DetailItem) (h : e ∈ items) :
    (detailLine e).data <:+:
      (classifyGenerateError 422 (some { detail := some (.arr items), message := msg })).data := by
  have hcls : classifyGenerateError 422 (some { detail := some (.arr items), message := msg }) =
      "Validation Error: " ++ joinWith "\n" (items.map detailLine) ++
        "\n\nPlease check your inputs and try again." := by
    simp [classifyGenerateError]
  rw [hcls]
  have hjoin : (detailLine e).data <:+: (joinWith "\n" (items.map detailLine)).data :=
    joinWith_contains_mem _ _ _ (List.mem_map_of_mem _ h)
  obtain ⟨u, v, huv⟩ := hjoin
  refine ⟨("Validation Error: " : String).data ++ u,
          v ++ ("\n\nPlease check your inputs and try again." : String).data, ?_⟩
  simp only [String.data_append, ← List.append_assoc]
  simp only [List.append_assoc]
  rw [show u ++ ((detailLine e).data ++ (v ++ ("\n\nPlease check your inputs and try again." : String).data)) =
        (u ++ (detailLine e).data ++ v) ++ ("\n\nPlease check your inputs and try again." : String).data by
      simp [List.append_assoc]]
  rw [huv]

/-- Witness for `c5_validation_lines`: the spec's simulated detail array
surfaces the line `body.text: too long`. -/
theorem c5_validation_lines_witness :
    (detailLine { loc := some ["body", "text"], msg := some "too long", message := none }).data <:+:
      (classifyGenerateError 422
        (some { detail := some (.arr [{ loc := some ["body", "text"], msg := some "too long",
                                        message := none }]),
                message := none })).data ∧
    detailLine { loc := some ["body", "text"], msg := some "too long", message := none } =
      "body.text: too long" :=
  ⟨c5_validation_lines _ none _ (by decide), by decide⟩

/-- Claim C9: `cleanProse` never returns more than 10,000 characters, and when
the cleaned, trimmed text is within the limit no truncation happens — the
result is exactly the formatting-removal plus trim. -/
theorem c9_cleanProse (s : String) :
    (cleanProse s).length ≤ 10000 ∧
    ((jsTrim (removeFormatting s.data)).length ≤ 10000 →
      cleanProse s = String.mk (jsTrim (removeFormatting s.data))) := by
  by_cases hlen : 10000 < (jsTrim (removeFormatting s.data)).length
  · have heq : cleanProse s = String.mk ((jsTrim (removeFormatting s.data)).take 10000) := by
      simp [cleanProse, cleanProseList, hlen]
    constructor
    · rw [heq]
      show (List.take 10000 (jsTrim (removeFormatting s.data))).length ≤ 10000
      simp [List.length_take]
    · intro hle
      omega
  · have heq : cleanProse s = String.mk (jsTrim (removeFormatting s.data)) := by
      simp [cleanProse, cleanProseList, hlen]
    refine ⟨?_, fun _ => heq⟩
    rw [heq]
    show (jsTrim (removeFormatting s.data)).length ≤ 10000
    omega

/-- Witness for `c9_cleanProse` on a small concrete note. -/
theorem c9_cleanProse_witness :
    (cleanProse "# Title\n\nSome **bold** text").length ≤ 10000 ∧
    cleanProse "# Title\n\nSome **bold** text" =
      String.mk (jsTrim (removeFormatting ("# Title\n\nSome **bold** text").data)) :=
  ⟨(c9_cleanProse _).1, (c9_cleanProse _).2 (by decide)⟩

theorem jsTrim_replicate_a (n : Nat) :
    jsTrim (List.replicate (n + 1) 'a') = List.replicate (n + 1) 'a' := by
  have hdrop : (List.replicate (n + 1) 'a').dropWhile isJsSpace = List.replicate (n + 1) 'a' := by
    rw [List.replicate_succ, List.dropWhile_cons, if_neg (by decide)]
  unfold jsTrim
  rw [hdrop, List.reverse_replicate, hdrop, List.reverse_replicate]

/-- Claim C2 (amended): variant 2's request construction guarantees the caps —
`text` at most 10,000 characters, `prompt` (when present) at most 1,000 — for
any modal input; variant 1 applies no truncation at all: its request carries
the trimmed description and prompt verbatim. -/
theorem c2_request_caps :
    (∀ t n p gt q ar imgs r, buildRequestV2 t n p gt q ar imgs = some r →
      r.text.length ≤ 10000 ∧ ∀ s, r.prompt = some s → s.length ≤ 1000) ∧
    (∀ t n p gt q ar imgs r, buildRequestV1 t n p gt q ar imgs = some r →
      r.text = jsTrimStr t ∧ r.prompt = jsTrimStr p) := by
  constructor
  · intro t n p gt q ar imgs r h
    simp only [buildRequestV2] at h
    split at h
    · exact absurd h (by simp)
    · split at h
      · exact absurd h (by simp)
      · rw [Option.some.injEq] at h
        subst h
        constructor
        · show (strTake 10000 (jsTrimStr t)).length ≤ 10000
          show (List.take 10000 (jsTrimStr t).data).length ≤ 10000
          simp [List.length_take]
        · intro s hs
          simp only at hs
          split at hs
          · exact absurd hs (by simp)
          · rw [Option.some.injEq] at hs
            subst hs
            show (List.take 1000 p.data).length ≤ 1000
            simp [List.length_take]
  · intro t n p gt q ar imgs r h
    simp only [buildRequestV1] at h
    split at h
    · exact absurd h (by simp)
    · rw [Option.some.injEq] at h
      subst h
      exact ⟨rfl, rfl⟩

/-- Witness for `c2_request_caps` on concrete modal inputs. -/
theorem c2_request_caps_witness :
    ({ text := "hello", image_name := "n", prompt := some "hi", generation_type := "character",
       quality := "medium", aspect_ratio := "square",
       reference_image_paths := none } : GenerationOptionsV2).text.length ≤ 10000 ∧
    ("hi" : String).length ≤ 1000 ∧
    ({ text := "desc", image_name := "Untitled", prompt := "", generation_type := "item",
       quality := "high", aspect_ratio := "square",
       reference_images := [] } : GenerationOptionsV1).text = jsTrimStr "desc" :=
  ⟨(c2_request_caps.1 "hello" "n" "hi" "character" "medium" "square" []
      { text := "hello", image_name := "n", prompt := some "hi",
        generation_type := "character", quality := "medium", aspect_ratio := "square",
        reference_image_paths := none } (by decide)).1,
   (c2_request_caps.1 "hello" "n" "hi" "character" "medium" "square" []
      { text := "hello", image_name := "n", prompt := some "hi",
        generation_type := "character", quality := "medium", aspect_ratio := "square",
        reference_image_paths := none } (by decide)).2 "hi" rfl,
   (c2_request_caps.2 "desc" "" "" "item" "high" "square" []
      { text := "desc", image_name := "Untitled", prompt := "",
        generation_type := "item", quality := "high", aspect_ratio := "square",
        reference_images := [] } (by decide)).1⟩

/-- Counterexample to claim C2 as stated: variant 1 submits a 10,001-character
description untruncated, so not every submitted request keeps `text` within
10,000 characters. -/
theorem c2_counterexample :
    (buildRequestV1 (String.mk (List.replicate 10001 'a')) "n" "" "character" "high" "square"
        []).map (fun r => r.text.length) = some 10001 ∧
    10000 < 10001 := by
  refine ⟨?_, by norm_num⟩
  have h10 : (10001 : Nat) = 10000 + 1 := by norm_num
  have htrim : jsTrimStr (String.mk (List.replicate 10001 'a')) =
      String.mk (List.replicate 10001 'a') := by
    show String.mk (jsTrim (List.replicate 10001 'a')) = _
    rw [h10, jsTrim_replicate_a]
  have hne : jsTrimStr (String.mk (List.replicate 10001 'a')) ≠ "" := by
    rw [htrim]
    intro hcontra
    have hdata : List.replicate 10001 'a' = [] := congrArg String.data hcontra
    have hlen := congrArg List.length hdata
    rw [List.length_replicate, List.length_nil] at hlen
    exact absurd hlen (by norm_num)
  unfold buildRequestV1
  rw [if_neg hne, htrim]
  show some (List.replicate 10001 'a').length = some 10001
  rw [List.length_replicate]

theorem findDelim_first (inner rest : List Char)
    (h : ∀ k, k < inner.length →
      fmClose.isPrefixOf (List.drop k (inner ++ (fmClose ++ rest))) = false) :
    findDelim (inner ++ (fmClose ++ rest)) = some rest := by
  induction inner with
  | nil =>
    simp only [List.nil_append]
    show findDelim ('\n' :: ('-' :: '-' :: '-' :: '\n' :: rest)) = some rest
    rw [findDelim]
    rw [if_pos (by simp [fmClose, List.isPrefixOf])]
    simp
  | cons c inner ih =>
    have h0 : fmClose.isPrefixOf (c :: (inner ++ (fmClose ++ rest))) = false := by
      have h0' := h 0 (by simp)
      rw [List.drop_zero, List.cons_append] at h0'
      exact h0'
    rw [List.cons_append, findDelim, if_neg (by simp [h0])]
    refine ih ?_
    intro k hk
    have hk' := h (k + 1) (by simp; omega)
    rw [List.cons_append, List.drop_succ_cons] at hk'
    exact hk'

theorem stripFrontmatterList_block (inner rest : List Char)
    (h : ∀ k, k < inner.length →
      fmClose.isPrefixOf (List.drop k (inner ++ (fmClose ++ rest))) = false) :
    stripFrontmatterList (fmOpen ++ (inner ++ (fmClose ++ rest))) = rest := by
  unfold stripFrontmatterList
  rw [if_pos]
  · have hdrop : (fmOpen ++ (inner ++ (fmClose ++ rest))).drop 4 =
        inner ++ (fmClose ++ rest) := by
      show ('-' :: '-' :: '-' :: '\n' :: (inner ++ (fmClose ++ rest))).drop 4 =
        inner ++ (fmClose ++ rest)
      simp
    rw [hdrop, findDelim_first inner rest h]
  · rw [List.isPrefixOf_iff_prefix]
    exact List.prefix_append _ _

theorem stripFrontmatter_no_open (s : String)
    (h : fmOpen.isPrefixOf s.data = false) : stripFrontmatter s = s := by
  obtain ⟨l⟩ := s
  show String.mk (stripFrontmatterList l) = String.mk l
  unfold stripFrontmatterList
  rw [if_neg (by simp [h])]

/-- Claim C4 (amended): the frontmatter step removes exactly one leading
`---\n...\n---\n` block, closed at the first `\n---\n` (the non-greedy first
match); a document whose text does not begin with `---\n` is returned
unchanged; and applying the step twice equals applying it once whenever the
stripped result does not itself begin with `---\n` — full idempotence fails
when a second frontmatter-shaped block immediately follows the first. -/
theorem c4_stripFrontmatter :
    (∀ inner rest : List Char,
      (∀ k, k < inner.length →
        fmClose.isPrefixOf (List.drop k (inner ++ (fmClose ++ rest))) = false) →
      stripFrontmatterList (fmOpen ++ (inner ++ (fmClose ++ rest))) = rest) ∧
    (∀ s : String, fmOpen.isPrefixOf s.data = false → stripFrontmatter s = s) ∧
    (∀ s : String, fmOpen.isPrefixOf (stripFrontmatter s).data = false →
      stripFrontmatter (stripFrontmatter s) = stripFrontmatter s) :=
  ⟨stripFrontmatterList_block, stripFrontmatter_no_open,
   fun _ h => stripFrontmatter_no_open _ h⟩

/-- Witness for `c4_stripFrontmatter` on concrete documents. -/
theorem c4_stripFrontmatter_witness :
    stripFrontmatterList (fmOpen ++ ("k: v".data ++ (fmClose ++ "Body".data))) = "Body".data ∧
    stripFrontmatter "plain document" = "plain document" ∧
    stripFrontmatter (stripFrontmatter "---\nk: v\n---\nrest") =
      stripFrontmatter "---\nk: v\n---\nrest" :=
  ⟨c4_stripFrontmatter.1 _ _ (by decide), c4_stripFrontmatter.2.1 _ (by decide),
   c4_stripFrontmatter.2.2 _ (by decide)⟩

/-- Counterexample to claim C4 as stated: the step is not idempotent — on a
document with two consecutive frontmatter blocks, the second application
strips the second block as well. -/
theorem c4_counterexample :
    stripFrontmatter (stripFrontmatter "---\na\n---\n---\nb\n---\nc") ≠
      stripFrontmatter "---\na\n---\n---\nb\n---\nc" := by decide

theorem execCapped_eq_take (matcher : List Char → Option (List Char × List Char)) :
    ∀ (fuel : Nat) (cs : List Char) (cap : Nat),
      execCapped matcher fuel cs cap = (execAll matcher fuel cs).take cap := by
  intro fuel
  induction fuel with
  | zero => intro cs cap; simp [execCapped, execAll]
  | succ f ih =>
    intro cs cap
    rcases Nat.eq_zero_or_pos cap with hc | hc
    · subst hc
      simp [execCapped]
    · obtain ⟨k, rfl⟩ : ∃ k, cap = k + 1 := ⟨cap - 1, by omega⟩
      cases hm : matcher cs with
      | some pr =>
        obtain ⟨capt, rest⟩ := pr
        simp [execCapped, execAll, hm, ih]
      | none =>
        cases cs with
        | nil => simp [execCapped, execAll, hm]
        | cons c tl => simp [execCapped, execAll, hm, ih]

/-- Claim C3: `extractImagePaths` returns the wiki-style embeds in document
order up to the cap, and only when fewer than the cap exist appends the
markdown-style embeds in document order until the cap; on a document with five
wiki-embeds and two markdown-embeds it returns exactly the first three
wiki-embeds, and on a document with one wiki-embed and four markdown-embeds it
returns the wiki-embed followed by the first two markdown-embeds. -/
theorem c3_extractImagePaths :
    (∀ (content : String) (cap : Nat),
      extractImagePaths content cap =
        ((wikiImageEmbeds content).take cap ++
          (mdImageEmbeds content).take
            (cap - ((wikiImageEmbeds content).take cap).length)).map String.mk) ∧
    extractImagePaths
        "![[a.png]] ![[b.jpg]] ![[c.gif]] ![[d.webp]] ![[e.bmp]] ![x](m1.png) ![y](m2.jpg)" 3 =
      ["a.png", "b.jpg", "c.gif"] ∧
    extractImagePaths "![x](m1.png) ![[w.png]] ![y](m2.jpg) ![z](m3.png) ![w](m4.gif)" 3 =
      ["w.png", "m1.png", "m2.jpg"] := by
  refine ⟨?_, by decide, by decide⟩
  intro content cap
  simp only [extractImagePaths, wikiImageEmbeds, mdImageEmbeds, execCapped_eq_take]
  split
  · rfl
  · next hge =>
    have hle : (List.take cap (execAll matchWikiImageAt content.data.length content.data)).length ≤ cap := by
      simp [List.length_take]
    have hlen : (List.take cap (execAll matchWikiImageAt content.data.length content.data)).length = cap :=
      le_antisymm hle (Nat.le_of_not_lt hge)
    rw [hlen, Nat.sub_self, List.take_zero, List.append_nil]
